import Mathlib

/-!
Shallow embedding of `src/frontend/src/components/DashboardHeader.jsx`.

The component renders a fixed header (logo image, title, refresh button) and
wires the button's onClick to `() => router.refresh()`, where `router` is
obtained from the host routing context via `useRouter()`.  The component
function takes no parameters, so any props a caller supplies are ignored.

The embedding translates:
  - the JSX tree into the flat record `HeaderTree` (the tree shape in the
    source is a fixed literal, so a record of its attribute values is a
    faithful representation);
  - the router obtained from `useRouter` into `RouterVal` (a mounted router
    or the JavaScript value `undefined`);
  - the click handler expression `() => router.refresh()` into `Handler`,
    with its operational meaning given by `runHandler` over a `World` that
    records the calls received by the router (in order, with their argument
    lists) and an abstract `other` component standing for all host state
    outside the router;
  - a faulting refresh capability via the `beh : Option Fault` parameter of
    the host semantics: `none` means `router.refresh()` returns normally,
    `some f` means it raises `f` after the call is received.
-/

namespace DashboardHeaderModel

/-- Identifier of a host router instance. -/
abbrev RouterId := Nat

/-- The value bound to `router` by `const router = useRouter()`: either a
mounted router of the host, or the JavaScript value `undefined`. -/
inductive RouterVal where
  | undef
  | router (id : RouterId)
deriving DecidableEq

/-- Faults observable from the handler: a JavaScript `TypeError` raised by
the component's own expression (calling an undefined value), or a fault
raised by the host's refresh capability itself. -/
inductive Fault where
  | typeError (msg : String)
  | hostFault (msg : String)
deriving DecidableEq

/-- An observable call event on the host router: `router.refresh` invoked
with the given argument list. -/
inductive Event where
  | refreshCall (router : RouterId) (args : List String)
deriving DecidableEq

/-- The click handler attached to the button in the source:
`() => router.refresh()`, closed over the `router` value in scope. -/
inductive Handler where
  | callRouterRefresh (r : RouterVal)
deriving DecidableEq

/-- Attributes of the `Image` element: `<Image src="/logo.png" height={80}
width={80} alt="Logo" />`. -/
structure ImageProps where
  src : String
  height : Nat
  width : Nat
  alt : String
deriving DecidableEq

/-- The rendered tree, flattened: the source JSX is one fixed literal tree
(outer div, brand div with image and h1, button with icon and label), so a
record of its attribute values represents it faithfully. -/
structure HeaderTree where
  containerClass : String
  brandClass : String
  logo : ImageProps
  titleClass : String
  titleText : String
  buttonOnClick : Handler
  iconName : String
  iconClass : String
  buttonLabel : String
deriving DecidableEq

/-- Props a caller may pass to the component.  The source function
`DashboardHeader()` declares no parameters, so every field here is ignored
by the component. -/
structure Props where
  title : Option String
  logoSource : Option String
deriving DecidableEq

/-- The empty props object: calling the component with no attributes. -/
def Props.default : Props := { title := none, logoSource := none }

/-- The host rendering context, which supplies the router read by
`useRouter()`. -/
structure Context where
  routerVal : RouterVal
deriving DecidableEq

/-- Host state observable to this development: the ordered log of calls the
router has received, and an abstract `other` component standing for every
piece of host state outside the router. -/
structure World where
  routerLog : List Event
  other : Nat
deriving DecidableEq

/-- Configuration passed to the `Montserrat` font loader in the source. -/
structure FontConfig where
  subsets : List String
  weight : List String
deriving DecidableEq

/-- A font object as returned by next/font: only its `className` is used. -/
structure Font where
  className : String
deriving DecidableEq

/-- External font loader `Montserrat({...})`: yields a font object with a
fixed generated class name. -/
def Montserrat (_cfg : FontConfig) : Font :=
  { className := "__montserrat_generated" }

/-- `const montserrat = Montserrat({ subsets: ["latin"], weight: ["400",
"700"] })` from the source. -/
def montserrat : Font :=
  Montserrat { subsets := ["latin"], weight := ["400", "700"] }

/-- `useRouter()` from next/navigation: reads the router supplied by the
host rendering context. -/
def useRouter (ctx : Context) : RouterVal := ctx.routerVal

/-- The component body, translated from the source.  It reads the router
from the context (`const router = useRouter()`) and returns the fixed JSX
tree; the props argument models a caller-supplied attribute set, which the
source function ignores since its parameter list is empty. -/
def DashboardHeader (_props : Props) (ctx : Context) : HeaderTree :=
  let router := useRouter ctx
  { containerClass := "flex items-center justify-between pb-4 " ++ montserrat.className
  , brandClass := "flex items-center w-fit gap-x-4"
  , logo := { src := "/logo.png", height := 80, width := 80, alt := "Logo" }
  , titleClass := "text-2xl font-bold"
  , titleText := "Aerosports TV control"
  , buttonOnClick := Handler.callRouterRefresh router
  , iconName := "RefreshCw"
  , iconClass := "h-3 w-4 mr-2 justify-end"
  , buttonLabel := "Refresh All" }

/-- Rendering as a step over host state: the body contains no effectful
statement (its one call, `useRouter()`, is a pure context read), so the
world threads through unchanged. -/
def renderStep (props : Props) (ctx : Context) (w : World) : HeaderTree × World :=
  (DashboardHeader props ctx, w)

/-- Semantics of `router.refresh(args)` on a mounted router: the router
records the call, then either returns normally or raises the fault the host
capability is configured (`beh`) to raise. -/
def routerRefresh (beh : Option Fault) (r : RouterId) (args : List String)
    (w : World) : World × Option Fault :=
  ({ w with routerLog := w.routerLog ++ [Event.refreshCall r args] }, beh)

/-- Running a handler: `() => router.refresh()` calls `refresh` with no
arguments on the router in scope.  If that value is `undefined`, the call
expression itself raises a JavaScript `TypeError` before any router is
reached. -/
def runHandler (beh : Option Fault) : Handler → World → World × Option Fault
  | Handler.callRouterRefresh rv, w =>
    match rv with
    | RouterVal.undef => (w, some (Fault.typeError "router.refresh is not a function"))
    | RouterVal.router r => routerRefresh beh r [] w

/-- One activation of the refresh control: run the button's onClick
handler. -/
def activate (beh : Option Fault) (t : HeaderTree) (w : World) : World × Option Fault :=
  runHandler beh t.buttonOnClick w

/-- `n` activations of the refresh control in sequence. -/
def activateN (beh : Option Fault) (t : HeaderTree) : Nat → World → World
  | 0, w => w
  | n + 1, w => activateN beh t n (activate beh t w).1

/-- Claim C1: a single activation of the refresh control invokes
`router.refresh` exactly once, synchronously, with no arguments: the router
log grows by exactly one zero-argument call event, and the outcome is
exactly the capability's own outcome (no retry, no suppression). -/
theorem single_activation_single_refresh (props : Props) (r : RouterId)
    (beh : Option Fault) (w : World) :
    activate beh (DashboardHeader props { routerVal := RouterVal.router r }) w
      = ({ w with routerLog := w.routerLog ++ [Event.refreshCall r []] }, beh) :=
  rfl

/-- Claim C2: `n` activations in sequence make the router log grow by
exactly `n` zero-argument refresh calls, appended in activation order, with
no deduplication. -/
theorem n_activations_n_refreshes (props : Props) (r : RouterId)
    (beh : Option Fault) (n : Nat) (w : World) :
    (activateN beh (DashboardHeader props { routerVal := RouterVal.router r }) n w).routerLog
      = w.routerLog ++ List.replicate n (Event.refreshCall r []) := by
  induction n generalizing w with
  | zero => simp [activateN]
  | succ n ih =>
    show (activateN beh _ n _).routerLog = _
    rw [ih]
    simp [activate, runHandler, DashboardHeader, useRouter, routerRefresh,
      List.replicate_succ]

/-- Claim C3, counterexample: with the custom configuration
`{title: "Arena 2 Control", logoSource: "/arena2-logo.png"}` the rendered
title is not "Arena 2 Control" and the logo source is not
"/arena2-logo.png" — the component declares no parameters, so the
configuration does not override anything. -/
theorem custom_config_not_applied :
    (DashboardHeader { title := some "Arena 2 Control", logoSource := some "/arena2-logo.png" }
        { routerVal := RouterVal.router 0 }).titleText ≠ "Arena 2 Control"
    ∧ (DashboardHeader { title := some "Arena 2 Control", logoSource := some "/arena2-logo.png" }
        { routerVal := RouterVal.router 0 }).logo.src ≠ "/arena2-logo.png" := by
  constructor
  · decide
  · decide

/-- Claim C3, amended: the component accepts no display configuration — any
caller-supplied configuration is ignored and rendering equals rendering
with the empty props — and the refresh capability is obtained by the
component itself from the host routing context (`useRouter`), not supplied
by the caller. -/
theorem config_ignored_router_from_context (p : Props) (ctx : Context) :
    DashboardHeader p ctx = DashboardHeader Props.default ctx
    ∧ (DashboardHeader p ctx).buttonOnClick = Handler.callRouterRefresh (useRouter ctx) :=
  ⟨rfl, rfl⟩

/-- Claim C4: rendering is pure and idempotent — it leaves the host world
unchanged, the produced tree does not depend on the world, and rendering
again after a render yields the identical tree. -/
theorem render_pure_idempotent (props : Props) (ctx : Context) (w w2 : World) :
    (renderStep props ctx w).2 = w
    ∧ (renderStep props ctx w).1 = (renderStep props ctx w2).1
    ∧ (renderStep props ctx ((renderStep props ctx w).2)).1 = (renderStep props ctx w).1 :=
  ⟨rfl, rfl, rfl⟩

/-- Claim C5, counterexample: when the refresh capability is undefined,
activating the control throws an opaque JavaScript `TypeError` from the
call on the undefined value — the component neither no-ops safely nor
rejects construction with a configuration error. -/
theorem undefined_capability_opaque_fault :
    (activate none (DashboardHeader Props.default { routerVal := RouterVal.undef })
        { routerLog := [], other := 0 }).2
      = some (Fault.typeError "router.refresh is not a function") :=
  rfl

/-- Claim C5, amended: the component performs no guard on the capability —
if the router value is undefined, construction (rendering) still succeeds
with no configuration error, and every activation raises an opaque
`TypeError` from the undefined call, with the router log unchanged. -/
theorem undefined_capability_behavior (props : Props) (beh : Option Fault) (w : World) :
    (renderStep props { routerVal := RouterVal.undef } w).2 = w
    ∧ activate beh (DashboardHeader props { routerVal := RouterVal.undef }) w
        = (w, some (Fault.typeError "router.refresh is not a function")) :=
  ⟨rfl, rfl⟩

/-- Claim C6: when the refresh capability raises a fault, the component
does not catch, retry or suppress it — the outcome of the activation is
exactly that fault and the router received exactly one call — and a
subsequent re-render yields a tree identical to the original, so the render
tree does not crash. -/
theorem capability_fault_propagates (props : Props) (r : RouterId) (f : Fault) (w : World) :
    (activate (some f) (DashboardHeader props { routerVal := RouterVal.router r }) w).2 = some f
    ∧ (activate (some f) (DashboardHeader props { routerVal := RouterVal.router r }) w).1.routerLog
        = w.routerLog ++ [Event.refreshCall r []]
    ∧ (renderStep props { routerVal := RouterVal.router r }
          (activate (some f) (DashboardHeader props { routerVal := RouterVal.router r }) w).1).1
        = DashboardHeader props { routerVal := RouterVal.router r } :=
  ⟨rfl, rfl, rfl⟩

/-- Claim C7: for a configuration with an undefined title and for one with
an empty title, the rendered title is the default string "Aerosports TV
control"; no error is produced. -/
theorem empty_or_missing_title_default (ctx : Context) (ls : Option String) :
    (DashboardHeader { title := none, logoSource := ls } ctx).titleText
        = "Aerosports TV control"
    ∧ (DashboardHeader { title := some "", logoSource := ls } ctx).titleText
        = "Aerosports TV control" :=
  ⟨rfl, rfl⟩

/-- Claim C8: under the default configuration the logo is rendered from
"/logo.png" at height 80 and width 80, and the title text equals the
default string. -/
theorem default_config_dimensions_title (ctx : Context) :
    (DashboardHeader Props.default ctx).logo.height = 80
    ∧ (DashboardHeader Props.default ctx).logo.width = 80
    ∧ (DashboardHeader Props.default ctx).logo.src = "/logo.png"
    ∧ (DashboardHeader Props.default ctx).titleText = "Aerosports TV control" :=
  ⟨rfl, rfl, rfl, rfl⟩

/-- Claim C9: the rendered tree is constant in every caller input — any two
props yield the same tree in the same context — and its visible content is
fixed: title "Aerosports TV control", logo "/logo.png" at 80 by 80, button
label "Refresh All" with the RefreshCw icon. -/
theorem render_tree_constant (p q : Props) (ctx : Context) :
    DashboardHeader p ctx = DashboardHeader q ctx
    ∧ (DashboardHeader p ctx).titleText = "Aerosports TV control"
    ∧ (DashboardHeader p ctx).logo
        = { src := "/logo.png", height := 80, width := 80, alt := "Logo" }
    ∧ (DashboardHeader p ctx).buttonLabel = "Refresh All"
    ∧ (DashboardHeader p ctx).iconName = "RefreshCw" :=
  ⟨rfl, rfl, rfl, rfl, rfl⟩

/-- Claim C10: the click handler is exactly the call `router.refresh()` and
an activation changes nothing outside the router — the `other` component of
the world is unchanged, and the router log grows by the single
zero-argument call. -/
theorem click_handler_frame (props : Props) (r : RouterId)
    (beh : Option Fault) (w : World) :
    (activate beh (DashboardHeader props { routerVal := RouterVal.router r }) w).1.other
        = w.other
    ∧ (activate beh (DashboardHeader props { routerVal := RouterVal.router r }) w).1.routerLog
        = w.routerLog ++ [Event.refreshCall r []]
    ∧ (DashboardHeader props { routerVal := RouterVal.router r }).buttonOnClick
        = Handler.callRouterRefresh (RouterVal.router r) :=
  ⟨rfl, rfl, rfl⟩

end DashboardHeaderModel
